import Mathlib

/-!
# Verification of the bot-nhoy order-approval workflow

Shallow embedding of the two source files of the repository:

* `src/backend/main.py` — the FastAPI "Order Store": a CRUD service over an
  `orders` relation (create / list / get / update / delete) plus a config
  table.  Orders are rows keyed by a serially assigned integer id.
* `src/bot/main.py` — the approval-workflow engine: three in-memory maps
  (`user_data`, `pending_approvals`, `completed_orders`) mutated by the
  Telegram handlers, with outbound HTTP calls to the Order Store.

The database is modelled as an association list keyed by order id; the three
in-memory dicts as association lists keyed by user id.  Network and file I/O
are external: each handler receives the outcome of its outbound calls as
explicit boolean/byte parameters.  Wall-clock time is threaded as a `Nat`.
-/

deriving instance DecidableEq for Except

namespace Backend

/-- A row of the `orders` table, as created by `create_order` in
`src/backend/main.py` (the `id` column is the association-list key). -/
structure Order where
  name : String
  udid : String
  image_url : String
  status : String
  download_link : String
  price : String
  created_at : Nat
deriving DecidableEq, Repr

/-- The Order Store state: the `orders` relation plus the next SERIAL id. -/
structure StoreState where
  orders : List (Nat × Order)
  nextId : Nat
deriving DecidableEq, Repr

def initStore : StoreState := { orders := [], nextId := 1 }

/-- An HTTP error response (`HTTPException(status_code, detail)`). -/
inductive ApiError
  | httpError (code : Nat) (detail : String)
deriving DecidableEq, Repr

/-- Replace the value stored at key `k` (models `UPDATE ... WHERE id=:id`). -/
def replaceEntry {α : Type} (m : List (Nat × α)) (k : Nat) (v : α) : List (Nat × α) :=
  m.map (fun p => if p.1 = k then (k, v) else p)

/-- `safe_filename` from the backend: drop every character outside
`[a-zA-Z0-9_-]`. -/
def safe_filename (name : String) : String :=
  String.mk (name.toList.filter (fun c => c.isAlphanum || c == '_' || c == '-'))

/-- Maximal digit run at the head of the list (the `\d+` part of the
backend's price regex). -/
def digitsRun : List Char → List Char
  | [] => []
  | c :: rest => if c.isDigit then c :: digitsRun rest else []

/-- First occurrence of `$` followed by at least one digit
(the backend's `re.search(r"\$(\d+)", name)`). -/
def findPrice : List Char → Option String
  | [] => none
  | c :: rest =>
    if c = '$' then
      let ds := digitsRun rest
      if ds.isEmpty then findPrice rest else some (String.mk ds)
    else findPrice rest

/-- The uploaded-file name written by the backend:
`{timestamp}_{safe_filename(name)[:12]}{ext}`. -/
def uploadFilename (name ext : String) (now : Nat) : String :=
  toString now ++ "_" ++ String.mk ((safe_filename name).toList.take 12) ++ ext

/-- `POST /orders` (`create_order` in `src/backend/main.py`): reject an empty
image with a 400, otherwise insert a new row with server-assigned id,
`status = "pending"`, `download_link = "#"` and the price extracted from the
display name; returns the created row and its id. -/
def create_order (st : StoreState) (name udid : String) (image : List Nat)
    (ext : String) (now : Nat) : Except ApiError (Order × Nat × StoreState) :=
  if image.isEmpty then .error (.httpError 400 "Empty image")
  else
    let price := (findPrice name.toList).getD "N/A"
    let o : Order :=
      { name := name, udid := udid,
        image_url := "/uploads/" ++ uploadFilename name ext now,
        status := "pending", download_link := "#",
        price := price, created_at := now }
    .ok (o, st.nextId, { orders := st.orders ++ [(st.nextId, o)], nextId := st.nextId + 1 })

/-- `GET /orders/{order_id}` (`get_order`): 404 when the id is unknown. -/
def get_order (st : StoreState) (id : Nat) : Except ApiError Order :=
  match st.orders.lookup id with
  | none => .error (.httpError 404 "Order not found")
  | some o => .ok o

/-- The optional form fields of `PUT /orders/{order_id}`; an image carries its
bytes and extension. -/
structure UpdateForm where
  name : Option String
  udid : Option String
  status : Option String
  download_link : Option String
  image : Option (List Nat × String)
deriving DecidableEq, Repr

/-- Apply the provided form fields to a row, as `update_order` builds
`update_data` (a cleared `download_link` is stored as `"#"`). -/
def applyUpdate (o : Order) (f : UpdateForm) (now : Nat) : Order :=
  { o with
    image_url := match f.image with
      | some (_, ext) => "/uploads/" ++ uploadFilename (f.name.getD o.name) ext now
      | none => o.image_url,
    name := f.name.getD o.name,
    udid := f.udid.getD o.udid,
    status := f.status.getD o.status,
    download_link := match f.download_link with
      | some s => if s = "" then "#" else s
      | none => o.download_link }

/-- `PUT /orders/{order_id}` (`update_order`): 404 when the id is unknown,
otherwise overwrite exactly the supplied fields.  No field at all makes the
generated `UPDATE ... SET` SQL malformed, surfacing as a 500. -/
def update_order (st : StoreState) (id : Nat) (f : UpdateForm) (now : Nat) :
    Except ApiError (Order × StoreState) :=
  match st.orders.lookup id with
  | none => .error (.httpError 404 "Order not found")
  | some o =>
    if f.name = none ∧ f.udid = none ∧ f.status = none ∧
        f.download_link = none ∧ f.image = none then
      .error (.httpError 500 "Internal Server Error")
    else
      let o' := applyUpdate o f now
      .ok (o', { st with orders := replaceEntry st.orders id o' })

/-- `DELETE /orders/{order_id}` (`delete_order`): runs the SQL delete and
answers `{"deleted": true}` unconditionally — there is no existence check. -/
def delete_order (st : StoreState) (id : Nat) : Except ApiError Bool × StoreState :=
  (.ok true, { st with orders := st.orders.filter (fun p => p.1 != id) })

/-- Modelled from the spec: the `PUT /orders/{order_id}/status` endpoint the
bot calls (`update_fastapi_order_status` targets it, and the backend declares
its request model `OrderUpdateStatus`) is not present in the backend variant
under `src/`; the spec's Order Store contract gives
`update_status(orderId, status ∈ {approved, rejected}) → success | failure(NotFound)`. -/
def update_order_status (st : StoreState) (id : Nat) (status : String) :
    Except ApiError (Order × StoreState) :=
  if status = "approved" ∨ status = "rejected" then
    match st.orders.lookup id with
    | none => .error (.httpError 404 "Order not found")
    | some o =>
      let o' := { o with status := status }
      .ok (o', { st with orders := replaceEntry st.orders id o' })
  else .error (.httpError 422 "Invalid status")

end Backend

namespace Bot

/-- One value of the `user_data` dict: the submitted UDID, and the payment
option once a plan button has been pressed. -/
structure SessionData where
  udid : String
  payment_option : Option String
deriving DecidableEq, Repr

/-- One value of the `pending_approvals` dict, as stored by
`handle_screenshot`. -/
structure PendingInfo where
  username : String
  udid : String
  payment_option : String
  timestamp : Nat
  fastapi_order_id : Nat
deriving DecidableEq, Repr

/-- One value of the `completed_orders` dict, as stored by
`send_response_to_user` on approval. -/
structure CompletedInfo where
  username : String
  udid : String
  payment_option : String
  completion_time : Nat
  fastapi_order_id : Nat
deriving DecidableEq, Repr

/-- The engine's three global in-memory maps, keyed by Telegram user id. -/
structure EngineState where
  user_data : List (Nat × SessionData)
  pending_approvals : List (Nat × PendingInfo)
  completed_orders : List (Nat × CompletedInfo)
deriving DecidableEq, Repr

/-- Whole-system state: the engine's memory plus the Order Store. -/
structure SysState where
  engine : EngineState
  store : Backend.StoreState
deriving DecidableEq, Repr

def initSys : SysState :=
  { engine := { user_data := [], pending_approvals := [], completed_orders := [] },
    store := Backend.initStore }

/-- Python `d[k] = v` on a dict: overwrite in place, or append a new key. -/
def setEntry {α : Type} (m : List (Nat × α)) (k : Nat) (v : α) : List (Nat × α) :=
  if (m.lookup k).isSome then Backend.replaceEntry m k v else m ++ [(k, v)]

/-- Python `del d[k]` (the handlers guard it by a membership test, so a plain
removal of every binding of `k` is faithful). -/
def eraseEntry {α : Type} (m : List (Nat × α)) (k : Nat) : List (Nat × α) :=
  m.filter (fun p => p.1 != k)

/-- The messages each handler sends, abstracted to their kind and the data
they carry (all UI copy text is out of scope per the spec). -/
inductive Reply
  | startWelcome
  | detailsNone
  | detailsInfo (info : CompletedInfo)
  | invalidUdidFormat
  | planOptions (udid : String)
  | sessionExpired
  | qrInstructions (plan : String)
  | startProcessFirst
  | alreadyProcessing
  | photoFileError
  | orderSubmitFailed
  | processingSubmitted
  | approvalSendError
  | successNotification (udid : String) (plan : String)
  | rejectedNotification
  | adminApprovalRequest (userId orderId : Nat) (udid plan : String)
  | adminInvalidCallback
  | adminExpiredInvalid
  | adminDecisionRecorded (approved : Bool) (orderId : Nat)
deriving DecidableEq, Repr

/-- Python `str.strip()` on both ends (whitespace removal). -/
def trimList (l : List Char) : List Char :=
  ((l.dropWhile Char.isWhitespace).reverse.dropWhile Char.isWhitespace).reverse

def trimStr (s : String) : String := String.mk (trimList s.toList)

/-- Python `needle in hay` on strings, over explicit character lists. -/
def substrB (needle : List Char) : List Char → Bool
  | [] => needle.isEmpty
  | c :: rest => needle.isPrefixOf (c :: rest) || substrB needle rest

/-- The character set of `validate_udid`:
`set('0123456789abcdefABCDEF-')`. -/
def validChars : List Char := "0123456789abcdefABCDEF-".toList

/-- `validate_udid` from `src/bot/main.py`: non-empty, length 20–50, every
character a hex digit (either case) or a hyphen. -/
def validate_udid (udid : String) : Bool :=
  if udid.length = 0 then false
  else if ¬ (20 ≤ udid.length ∧ udid.length ≤ 50) then false
  else if ¬ (udid.toList.all (fun c => validChars.contains c)) then false
  else true

/-- The dispatch test of `handle_other_messages`:
`'start' in update.message.text.strip().lower()`. -/
def startTrigger (text : String) : Bool :=
  substrB ['s', 't', 'a', 'r', 't'] ((trimList text.toList).map Char.toLower)

/-- `username.replace('@', '') if username.startswith('@') else username`. -/
def username_clean (u : String) : String :=
  match u.toList with
  | '@' :: _ => String.mk (u.toList.filter (fun c => c != '@'))
  | _ => u

/-- Outcome of the external calls a screenshot upload performs: fetching the
Telegram file object, downloading its bytes, the HTTP round trip of
`POST /orders`, and the `sendMessage` to the admin bot. -/
structure ScreenshotEnv where
  fileOk : Bool
  downloadOk : Bool
  httpOk : Bool
  imageBytes : List Nat
  bot2Ok : Bool
deriving DecidableEq, Repr

/-- `create_fastapi_order`: build the display name
`"{username_clean} (${payment_option} Plan)"`, download the photo bytes, POST
them to the Order Store; any download failure, transport failure or non-2xx
response yields `None` and leaves the store untouched. -/
def create_fastapi_order (uid : Nat) (username udid payment_option : String)
    (env : ScreenshotEnv) (store : Backend.StoreState) (now : Nat) :
    Option Nat × Backend.StoreState :=
  let name_with_price := username_clean username ++ " ($" ++ payment_option ++ " Plan)"
  if ¬ env.downloadOk then (none, store)
  else if ¬ env.httpOk then (none, store)
  else
    match Backend.create_order store name_with_price udid env.imageBytes ".jpg" now with
    | .ok (_, id, store') => (some id, store')
    | .error _ => (none, store)

/-- `update_fastapi_order_status`: PUT the status to the Order Store's status
endpoint; a transport failure or error response yields `False`. -/
def update_fastapi_order_status (order_id : Nat) (status : String)
    (httpOk : Bool) (store : Backend.StoreState) : Bool × Backend.StoreState :=
  if ¬ httpOk then (false, store)
  else
    match Backend.update_order_status store order_id status with
    | .ok (_, store') => (true, store')
    | .error _ => (false, store)

/-- `/start` (`start` handler): unconditionally drop the user's `user_data`
and `pending_approvals` entries and greet. -/
def start (uid : Nat) (st : SysState) : SysState × List Reply :=
  ({ st with engine := { st.engine with
      user_data := eraseEntry st.engine.user_data uid,
      pending_approvals := eraseEntry st.engine.pending_approvals uid } },
   [.startWelcome])

/-- `/Details` (`details_order`): report the `completed_orders` entry, or its
absence.  Never mutates anything. -/
def details_order (uid : Nat) (st : SysState) : SysState × List Reply :=
  match st.engine.completed_orders.lookup uid with
  | none => (st, [.detailsNone])
  | some info => (st, [.detailsInfo info])

/-- `handle_udid_input`: strip the text, validate it as a UDID; on success
store a fresh session `{'udid': udid}` (any previously selected plan is
dropped) and offer the plan buttons. -/
def handle_udid_input (uid : Nat) (text : String) (st : SysState) :
    SysState × List Reply :=
  let udid := trimStr text
  if ¬ validate_udid udid then (st, [.invalidUdidFormat])
  else
    ({ st with engine := { st.engine with
        user_data := setEntry st.engine.user_data uid
          { udid := udid, payment_option := none } } },
     [.planOptions udid])

/-- Split a character list at the first occurrence of `sep`
(Python `split(sep, 1)` when it succeeds). -/
def splitFirst (sep : Char) : List Char → Option (List Char × List Char)
  | [] => none
  | c :: rest =>
    if c = sep then some ([], rest)
    else (splitFirst sep rest).map (fun p => (c :: p.1, p.2))

/-- Python `data.split('_')[1]`: the segment between the first and second
underscore (the payment handler's plan extraction). -/
def secondField (data : String) : String :=
  match splitFirst '_' data.toList with
  | none => ""
  | some (_, rest) =>
    match splitFirst '_' rest with
    | none => String.mk rest
    | some (f, _) => String.mk f

/-- `handle_payment_button`: require a live session (else "Session expired"),
then record the plan from the `payment_{n}` callback data. -/
def handle_payment_button (uid : Nat) (data : String) (st : SysState) :
    SysState × List Reply :=
  match st.engine.user_data.lookup uid with
  | none => (st, [.sessionExpired])
  | some sd =>
    let payment_option := secondField data
    ({ st with engine := { st.engine with
        user_data := setEntry st.engine.user_data uid
          { sd with payment_option := some payment_option } } },
     [.qrInstructions payment_option])

/-- `handle_screenshot`: session-with-plan check, then the pending-approval
check, then fetch the file, create the order in the Order Store (abort on
failure), record the PendingApproval, acknowledge the user, and alert the
admin bot (rolling the PendingApproval back if that alert fails). -/
def handle_screenshot (uid : Nat) (username : String) (env : ScreenshotEnv)
    (now : Nat) (st : SysState) : SysState × List Reply :=
  match st.engine.user_data.lookup uid with
  | none => (st, [.startProcessFirst])
  | some sd =>
    match sd.payment_option with
    | none => (st, [.startProcessFirst])
    | some payment_option =>
      if (st.engine.pending_approvals.lookup uid).isSome then
        (st, [.alreadyProcessing])
      else if ¬ env.fileOk then
        (st, [.photoFileError])
      else
        match create_fastapi_order uid username sd.udid payment_option env st.store now with
        | (none, store') => ({ st with store := store' }, [.orderSubmitFailed])
        | (some order_id, store') =>
          let pending : PendingInfo :=
            { username := username, udid := sd.udid,
              payment_option := payment_option, timestamp := now,
              fastapi_order_id := order_id }
          let st1 : SysState :=
            { engine := { st.engine with
                pending_approvals := setEntry st.engine.pending_approvals uid pending },
              store := store' }
          if env.bot2Ok then
            (st1, [.processingSubmitted, .adminApprovalRequest uid order_id sd.udid payment_option])
          else
            ({ st1 with engine := { st1.engine with
                pending_approvals := eraseEntry st1.engine.pending_approvals uid } },
             [.processingSubmitted, .approvalSendError])

/-- Python nonnegative `int(s)` on a plain digit string. -/
def natFromDigits (l : List Char) : Option Nat :=
  if l.isEmpty then none
  else if l.all Char.isDigit then
    some (l.foldl (fun n c => n * 10 + (c.toNat - 48)) 0)
  else none

/-- `action, order_id_str = query.data.split('_', 1); order_id = int(order_id_str)`,
with the `ValueError` path collapsed to `none`. -/
def parseDecision (data : String) : Option (String × Nat) :=
  match splitFirst '_' data.toList with
  | none => none
  | some (a, rest) =>
    match natFromDigits rest with
    | none => none
    | some n => some (String.mk a, n)

/-- `send_response_to_user`: on approval PUT `approved` to the Order Store,
record the `completed_orders` entry (fields from the still-present
`pending_approvals` entry, with `.get` defaults), and send the success photo;
on rejection PUT `rejected` and send the rejection notice.  Returns whether
the Telegram send succeeded (the caller ignores it). -/
def send_response_to_user (uid : Nat) (approved : Bool) (order_id : Nat)
    (updHttpOk notifyOk : Bool) (now : Nat) (st : SysState) :
    (SysState × List Reply) × Bool :=
  let user_info := st.engine.pending_approvals.lookup uid
  if approved then
    let upd := update_fastapi_order_status order_id "approved" updHttpOk st.store
    let username := (user_info.map PendingInfo.username).getD "User"
    let udid := (user_info.map PendingInfo.udid).getD "N/A"
    let payment_option := (user_info.map PendingInfo.payment_option).getD "0"
    let completed : CompletedInfo :=
      { username := username, udid := udid, payment_option := payment_option,
        completion_time := now, fastapi_order_id := order_id }
    (({ engine := { st.engine with
          completed_orders := setEntry st.engine.completed_orders uid completed },
        store := upd.2 },
      [.successNotification udid payment_option]), notifyOk)
  else
    let upd := update_fastapi_order_status order_id "rejected" updHttpOk st.store
    (({ st with store := upd.2 }, [.rejectedNotification]), notifyOk)

/-- `handle_bot2_callback`: parse `approve_{id}` / `reject_{id}`, resolve the
order id by scanning `pending_approvals`; an unmatched id only yields the
expired notice.  Otherwise run `send_response_to_user`, edit the admin
message, drop the `pending_approvals` entry, and on approval also drop the
`user_data` entry. -/
def handle_bot2_callback (data : String) (updHttpOk notifyOk : Bool)
    (now : Nat) (st : SysState) : SysState × List Reply :=
  match parseDecision data with
  | none => (st, [.adminInvalidCallback])
  | some (action, order_id) =>
    match st.engine.pending_approvals.find? (fun p => p.2.fastapi_order_id == order_id) with
    | none => (st, [.adminExpiredInvalid])
    | some (uid, _) =>
      let approved := action == "approve"
      let res := send_response_to_user uid approved order_id updHttpOk notifyOk now st
      let st1 := res.1.1
      let st2 : SysState :=
        { st1 with engine := { st1.engine with
            pending_approvals := eraseEntry st1.engine.pending_approvals uid } }
      let st3 : SysState :=
        if approved then
          { st2 with engine := { st2.engine with
              user_data := eraseEntry st2.engine.user_data uid } }
        else st2
      (st3, res.1.2 ++ [.adminDecisionRecorded approved order_id])

/-- `handle_other_messages`: any non-command text whose stripped, lowered form
contains `start` re-runs the `/start` handler; everything else is treated as a
UDID submission. -/
def handle_other_messages (uid : Nat) (text : String) (st : SysState) :
    SysState × List Reply :=
  if startTrigger text then start uid st
  else handle_udid_input uid text st

end Bot

namespace Bot

/-! Concrete end-to-end scenario: user 7 submits a valid UDID, selects the
$12 plan, uploads a screenshot with every external call succeeding, and the
admin approves order 1.  These states witness the general theorems below. -/

def envOk : ScreenshotEnv :=
  { fileOk := true, downloadOk := true, httpOk := true,
    imageBytes := [1, 2, 3], bot2Ok := true }

def envNetFail : ScreenshotEnv :=
  { fileOk := true, downloadOk := true, httpOk := false,
    imageBytes := [1, 2, 3], bot2Ok := true }

def udidW : String := "ab12cd34ef56ab78cd90"

def stS1 : SysState := (handle_other_messages 7 udidW initSys).1

def stS2 : SysState := (handle_payment_button 7 "payment_12" stS1).1

def stS3 : SysState := (handle_screenshot 7 "@alice" envOk 30 stS2).1

def stS4 : SysState := (handle_bot2_callback "approve_1" true true 40 stS3).1

/-- The pending-approval entry held for user 7 in `stS3`. -/
def infoW : PendingInfo :=
  { username := "@alice", udid := udidW, payment_option := "12",
    timestamp := 30, fastapi_order_id := 1 }

/-- The Order Store row created for user 7 in `stS3`. -/
def ordW : Backend.Order :=
  { name := "alice ($12 Plan)", udid := udidW,
    image_url := "/uploads/30_alice12Plan.jpg", status := "pending",
    download_link := "#", price := "12", created_at := 30 }

/-- The state used against claim C5: after `stS3` the user sends a second
valid UDID as plain text, overwriting the session (and its plan selection)
while the pending approval is still outstanding. -/
def stC5 : SysState := (handle_other_messages 7 "ffffffffffffffffffff" stS3).1

/-- The completed-orders entry recorded for user 7 in `stS4`. -/
def completedW : CompletedInfo :=
  { username := "@alice", udid := udidW, payment_option := "12",
    completion_time := 40, fastapi_order_id := 1 }

end Bot

/-- Claim C4's character class, stated arithmetically on code points: a
decimal digit (48–57), a lowercase hex letter (97–102), an uppercase hex
letter (65–70), or the hyphen (45). -/
def isHexOrHyphen (c : Char) : Prop :=
  (48 ≤ c.toNat ∧ c.toNat ≤ 57) ∨ (97 ≤ c.toNat ∧ c.toNat ≤ 102) ∨
  (65 ≤ c.toNat ∧ c.toNat ≤ 70) ∨ c.toNat = 45

instance (c : Char) : Decidable (isHexOrHyphen c) := by
  unfold isHexOrHyphen
  infer_instance

/-- An update form carrying only a status value outside
`{pending, approved, rejected}`. -/
def garbageForm : Backend.UpdateForm :=
  { name := none, udid := none, status := some "garbage",
    download_link := none, image := none }

/-- An update form carrying only a name (used to exercise `update_order` on a
missing id). -/
def nameOnlyForm : Backend.UpdateForm :=
  { name := some "bob", udid := none, status := none,
    download_link := none, image := none }

section AssocListLemmas

variable {α : Type}

theorem lookup_filter_ne (m : List (Nat × α)) (k k' : Nat) (h : k' ≠ k) :
    (m.filter (fun p => p.1 != k)).lookup k' = m.lookup k' := by
  induction m with
  | nil => rfl
  | cons a t ih =>
    obtain ⟨ak, av⟩ := a
    by_cases hk : ak = k
    · subst hk
      have h2 : (k' == ak) = false := beq_eq_false_iff_ne.mpr h
      simp [List.filter_cons, List.lookup_cons, h2, ih]
    · have h1 : (ak != k) = true := bne_iff_ne.mpr hk
      by_cases hk' : k' = ak
      · subst hk'
        simp [List.filter_cons, List.lookup_cons, h1]
      · have h2 : (k' == ak) = false := beq_eq_false_iff_ne.mpr hk'
        simp [List.filter_cons, List.lookup_cons, h1, h2, ih]

theorem lookup_filter_self (m : List (Nat × α)) (k : Nat) :
    (m.filter (fun p => p.1 != k)).lookup k = none := by
  induction m with
  | nil => rfl
  | cons a t ih =>
    obtain ⟨ak, av⟩ := a
    by_cases hk : ak = k
    · subst hk
      simp [List.filter_cons, ih]
    · have h1 : (ak != k) = true := bne_iff_ne.mpr hk
      have h2 : (k == ak) = false := beq_eq_false_iff_ne.mpr (Ne.symm hk)
      simp [List.filter_cons, List.lookup_cons, h1, h2, ih]

theorem filter_ne_eq_self (m : List (Nat × α)) (k : Nat) (h : m.lookup k = none) :
    m.filter (fun p => p.1 != k) = m := by
  induction m with
  | nil => rfl
  | cons a t ih =>
    obtain ⟨ak, av⟩ := a
    rw [List.lookup_cons] at h
    by_cases hk : k = ak
    · exfalso
      simp [hk] at h
    · have h2 : (k == ak) = false := beq_eq_false_iff_ne.mpr hk
      rw [h2] at h
      have h1 : (ak != k) = true := bne_iff_ne.mpr (Ne.symm hk)
      simp [List.filter_cons, h1, ih h]

theorem lookup_append_left_none (m l : List (Nat × α)) (k : Nat)
    (h : m.lookup k = none) : (m ++ l).lookup k = l.lookup k := by
  induction m with
  | nil => rfl
  | cons a t ih =>
    obtain ⟨ak, av⟩ := a
    rw [List.lookup_cons] at h
    by_cases hk : k = ak
    · exfalso
      simp [hk] at h
    · have h2 : (k == ak) = false := beq_eq_false_iff_ne.mpr hk
      rw [h2] at h
      simp only [List.cons_append, List.lookup_cons, h2]
      exact ih h

theorem lookup_replaceEntry_self (m : List (Nat × α)) (k : Nat) (v o : α)
    (h : m.lookup k = some o) :
    (Backend.replaceEntry m k v).lookup k = some v := by
  induction m with
  | nil => simp [List.lookup_nil] at h
  | cons a t ih =>
    obtain ⟨ak, av⟩ := a
    by_cases hk : ak = k
    · subst hk
      simp [Backend.replaceEntry, List.lookup_cons]
    · have h2 : (k == ak) = false := beq_eq_false_iff_ne.mpr (Ne.symm hk)
      rw [List.lookup_cons, h2] at h
      simp only [Backend.replaceEntry, List.map_cons] at *
      rw [if_neg hk, List.lookup_cons, h2]
      exact ih h

theorem lookup_setEntry_self (m : List (Nat × α)) (k : Nat) (v : α) :
    (Bot.setEntry m k v).lookup k = some v := by
  unfold Bot.setEntry
  cases h : m.lookup k with
  | some o =>
    simp only [h, Option.isSome_some, if_true]
    exact lookup_replaceEntry_self m k v o h
  | none =>
    simp only [h, Option.isSome_none, Bool.false_eq_true, if_false]
    rw [lookup_append_left_none m _ k h, List.lookup_cons]
    simp

end AssocListLemmas

theorem create_fastapi_fail_store (uid : Nat) (username udid p : String)
    (env : Bot.ScreenshotEnv) (store : Backend.StoreState) (now : Nat)
    (h : (Bot.create_fastapi_order uid username udid p env store now).1 = none) :
    (Bot.create_fastapi_order uid username udid p env store now).2 = store := by
  unfold Bot.create_fastapi_order at h ⊢
  by_cases h1 : env.downloadOk
  · by_cases h2 : env.httpOk
    · simp only [h1, h2, not_true, if_false, if_neg] at h ⊢
      cases hc : Backend.create_order store
          (Bot.username_clean username ++ " ($" ++ p ++ " Plan)") udid
          env.imageBytes ".jpg" now with
      | ok r =>
        obtain ⟨o, id, st'⟩ := r
        rw [hc] at h
        simp at h
      | error e => rfl
    · simp [h1, h2]
  · simp [h1]

theorem mem_of_isPrefixOf {l n : List Char} (h : n.isPrefixOf l = true) :
    ∀ c ∈ n, c ∈ l :=
  fun _ hc => (List.isPrefixOf_iff_prefix.mp h).subset hc

theorem mem_of_substrB {needle : List Char} :
    ∀ {hay : List Char}, Bot.substrB needle hay = true → ∀ c ∈ needle, c ∈ hay := by
  intro hay
  induction hay with
  | nil =>
    intro h c hc
    unfold Bot.substrB at h
    cases needle with
    | nil => cases hc
    | cons a t => simp at h
  | cons b t ih =>
    intro h c hc
    unfold Bot.substrB at h
    cases hp : needle.isPrefixOf (b :: t) with
    | true => exact mem_of_isPrefixOf hp c hc
    | false =>
      rw [hp, Bool.false_or] at h
      exact List.mem_cons_of_mem b (ih h c hc)

theorem mem_of_mem_dropWhile {p : Char → Bool} {l : List Char} {c : Char}
    (h : c ∈ l.dropWhile p) : c ∈ l := by
  induction l with
  | nil => simp at h
  | cons a t ih =>
    rw [List.dropWhile_cons] at h
    by_cases hp : p a = true
    · rw [if_pos hp] at h
      exact List.mem_cons_of_mem a (ih h)
    · rw [if_neg hp] at h
      exact h

theorem mem_of_mem_trimList {l : List Char} {c : Char}
    (h : c ∈ Bot.trimList l) : c ∈ l := by
  unfold Bot.trimList at h
  rw [List.mem_reverse] at h
  have h1 := mem_of_mem_dropWhile h
  rw [List.mem_reverse] at h1
  exact mem_of_mem_dropWhile h1

theorem mem_validChars_iff (c : Char) : c ∈ Bot.validChars ↔ isHexOrHyphen c := by
  constructor
  · intro h
    have hall : ∀ x ∈ Bot.validChars, isHexOrHyphen x := by decide
    exact hall c h
  · intro h
    have hofn : Char.ofNat c.toNat = c := Char.ofNat_toNat c
    rcases h with ⟨h1, h2⟩ | ⟨h1, h2⟩ | ⟨h1, h2⟩ | h1
    · have hd : c.toNat = 48 ∨ c.toNat = 49 ∨ c.toNat = 50 ∨ c.toNat = 51 ∨
          c.toNat = 52 ∨ c.toNat = 53 ∨ c.toNat = 54 ∨ c.toNat = 55 ∨
          c.toNat = 56 ∨ c.toNat = 57 := by omega
      rcases hd with h | h | h | h | h | h | h | h | h | h <;>
        rw [← hofn, h] <;> decide
    · have hd : c.toNat = 97 ∨ c.toNat = 98 ∨ c.toNat = 99 ∨ c.toNat = 100 ∨
          c.toNat = 101 ∨ c.toNat = 102 := by omega
      rcases hd with h | h | h | h | h | h <;> rw [← hofn, h] <;> decide
    · have hd : c.toNat = 65 ∨ c.toNat = 66 ∨ c.toNat = 67 ∨ c.toNat = 68 ∨
          c.toNat = 69 ∨ c.toNat = 70 := by omega
      rcases hd with h | h | h | h | h | h <;> rw [← hofn, h] <;> decide
    · rw [← hofn, h1]
      decide

theorem startTrigger_false_of_valid (s : String)
    (h : Bot.validate_udid s = true) : Bot.startTrigger s = false := by
  cases hb : Bot.startTrigger s with
  | false => rfl
  | true =>
    exfalso
    unfold Bot.startTrigger at hb
    have hs : 's' ∈ (Bot.trimList s.toList).map Char.toLower :=
      mem_of_substrB hb 's' (by simp)
    obtain ⟨c, hc, hlc⟩ := List.mem_map.mp hs
    have hcl : c ∈ s.toList := mem_of_mem_trimList hc
    unfold Bot.validate_udid at h
    split_ifs at h with h1 h2 h3
    have hall := h3
    rw [List.all_eq_true] at hall
    have hcv : List.elem c Bot.validChars = true := hall c hcl
    have hmem : c ∈ Bot.validChars := List.elem_iff.mp hcv
    have hlow : ∀ x ∈ Bot.validChars, Char.toLower x ≠ 's' := by decide
    exact hlow c hmem hlc

/-- Claim C4: `validate_udid` accepts a string if and only if its length is
between 20 and 50 inclusive and every character is a hexadecimal digit
(either case) or a hyphen. -/
theorem udid_validation_characterization (s : String) :
    Bot.validate_udid s = true ↔
      (20 ≤ s.length ∧ s.length ≤ 50 ∧ ∀ c ∈ s.toList, isHexOrHyphen c) := by
  constructor
  · intro h
    unfold Bot.validate_udid at h
    split_ifs at h with h1 h2 h3
    refine ⟨h2.1, h2.2, ?_⟩
    intro c hcmem
    rw [List.all_eq_true] at h3
    exact (mem_validChars_iff c).mp (List.elem_iff.mp (h3 c hcmem))
  · rintro ⟨hl, hu, hc⟩
    unfold Bot.validate_udid
    have h1 : ¬ (s.length = 0) := by omega
    have h3 : s.toList.all (fun c => Bot.validChars.contains c) = true := by
      rw [List.all_eq_true]
      intro x hx
      exact List.elem_iff.mpr ((mem_validChars_iff x).mpr (hc x hx))
    rw [if_neg h1, if_neg (not_not.mpr ⟨hl, hu⟩), if_neg (not_not.mpr h3)]

/-- Witness for C4: the characterization evaluated at a concrete UDID. -/
theorem udid_validation_characterization_witness :
    Bot.validate_udid "ab12cd34ef56ab78cd90" = true :=
  (udid_validation_characterization "ab12cd34ef56ab78cd90").mpr (by decide)

/-- Claim C10: a non-command text runs the full `/start` reset exactly when
its stripped, lowercased form contains the substring `start` (so `restart`
wipes the user's session and pending approval), and is otherwise treated as
a UDID submission; no string accepted by `validate_udid` can trigger the
reset. -/
theorem text_routing_start_substring (uid : Nat) (t : String) (st : Bot.SysState) :
    (Bot.handle_other_messages uid t st =
      if Bot.startTrigger t then Bot.start uid st
      else Bot.handle_udid_input uid t st)
    ∧ Bot.startTrigger "restart" = true
    ∧ (Bot.start uid st).1.engine.user_data.lookup uid = none
    ∧ (Bot.start uid st).1.engine.pending_approvals.lookup uid = none
    ∧ (∀ s : String, Bot.validate_udid s = true → Bot.startTrigger s = false) := by
  refine ⟨rfl, by decide, ?_, ?_, fun s hs => startTrigger_false_of_valid s hs⟩
  · exact lookup_filter_self st.engine.user_data uid
  · exact lookup_filter_self st.engine.pending_approvals uid

/-- Witness for C10: concrete routing of `restart` from the initial state,
and a concrete accepted UDID that cannot trigger the reset. -/
theorem text_routing_start_substring_witness :
    (Bot.handle_other_messages 7 "restart" Bot.initSys =
      if Bot.startTrigger "restart" then Bot.start 7 Bot.initSys
      else Bot.handle_udid_input 7 "restart" Bot.initSys)
    ∧ Bot.startTrigger "restart" = true
    ∧ (Bot.start 7 Bot.initSys).1.engine.user_data.lookup 7 = none
    ∧ (Bot.start 7 Bot.initSys).1.engine.pending_approvals.lookup 7 = none
    ∧ Bot.startTrigger Bot.udidW = false :=
  ⟨(text_routing_start_substring 7 "restart" Bot.initSys).1,
   (text_routing_start_substring 7 "restart" Bot.initSys).2.1,
   (text_routing_start_substring 7 "restart" Bot.initSys).2.2.1,
   (text_routing_start_substring 7 "restart" Bot.initSys).2.2.2.1,
   (text_routing_start_substring 7 "restart" Bot.initSys).2.2.2.2 Bot.udidW (by decide)⟩

/-- Counterexample for C3: the order store is empty, so id 5 is unknown, yet
`delete_order` answers success rather than the NotFound error the claim
requires for all three of get, update and delete. -/
theorem delete_unknown_id_reports_success :
    (Backend.initStore.orders.lookup 5 = none)
    ∧ (Backend.delete_order Backend.initStore 5).1 = .ok true
    ∧ (Backend.delete_order Backend.initStore 5).1 ≠
        .error (.httpError 404 "Order not found") := by
  refine ⟨rfl, rfl, fun hco => ?_⟩
  exact Except.noConfusion hco

/-- Claim C3 as amended: an unknown order id yields the NotFound error on
get-order and update-order, while delete-order reports success regardless
and leaves the store unchanged. -/
theorem unknown_id_error_reporting
    (st : Backend.StoreState) (id : Nat) (f : Backend.UpdateForm) (now : Nat)
    (h : st.orders.lookup id = none) :
    Backend.get_order st id = .error (.httpError 404 "Order not found")
    ∧ Backend.update_order st id f now = .error (.httpError 404 "Order not found")
    ∧ (Backend.delete_order st id).1 = .ok true
    ∧ (Backend.delete_order st id).2 = st := by
  refine ⟨?_, ?_, rfl, ?_⟩
  · unfold Backend.get_order
    rw [h]
  · unfold Backend.update_order
    rw [h]
  · unfold Backend.delete_order
    simp only []
    rw [filter_ne_eq_self st.orders id h]

/-- Witness for C3 (amended): the three operations evaluated at the unknown
id 9 against the store holding the approved order 1. -/
theorem unknown_id_error_reporting_witness :
    Backend.get_order Bot.stS4.store 9 = .error (.httpError 404 "Order not found")
    ∧ Backend.update_order Bot.stS4.store 9 nameOnlyForm 50 =
        .error (.httpError 404 "Order not found")
    ∧ (Backend.delete_order Bot.stS4.store 9).1 = .ok true
    ∧ (Backend.delete_order Bot.stS4.store 9).2 = Bot.stS4.store :=
  unknown_id_error_reporting Bot.stS4.store 9 nameOnlyForm 50 (by decide)

/-- Counterexample for C2: the pending order 1 (created through the real
screenshot flow) is moved by `update_order` to the status string `garbage`,
which is outside `{pending, approved, rejected}` — the store enforces no
status discipline. -/
theorem update_order_breaks_status_invariant :
    ((Bot.stS3.store.orders.lookup 1).map Backend.Order.status = some "pending")
    ∧ ((Backend.update_order Bot.stS3.store 1 garbageForm 31).toOption.map
        (fun r => r.1.status) = some "garbage")
    ∧ ("garbage" ≠ "pending" ∧ "garbage" ≠ "approved" ∧ "garbage" ≠ "rejected") := by
  decide

/-- Claim C2 as amended: rows are created with status `pending`, and the
update-order operation overwrites the status field with exactly the
caller-supplied string on any existing order — the Order Store itself places
no restriction on status transitions. -/
theorem store_status_update_behaviour
    (stC : Backend.StoreState) (nm ud e : String) (im : List Nat) (nw : Nat)
    (o' : Backend.Order) (id' : Nat) (stC' : Backend.StoreState)
    (hcr : Backend.create_order stC nm ud im e nw = .ok (o', id', stC'))
    (st : Backend.StoreState) (id : Nat) (o : Backend.Order) (s : String) (now : Nat)
    (h : st.orders.lookup id = some o) :
    o'.status = "pending"
    ∧ Backend.update_order st id
        { name := none, udid := none, status := some s,
          download_link := none, image := none } now
      = .ok ({ o with status := s },
             { st with orders := Backend.replaceEntry st.orders id { o with status := s } })
    ∧ (Backend.replaceEntry st.orders id { o with status := s }).lookup id
      = some { o with status := s } := by
  refine ⟨?_, ?_, lookup_replaceEntry_self st.orders id _ o h⟩
  · unfold Backend.create_order at hcr
    by_cases him : im.isEmpty = true
    · rw [if_pos him] at hcr
      cases hcr
    · rw [if_neg him] at hcr
      injection hcr with h1
      rw [Prod.mk.injEq, Prod.mk.injEq] at h1
      rw [← h1.1]
  · unfold Backend.update_order
    rw [h]
    simp [Backend.applyUpdate]

/-- Witness for C2 (amended): the concrete creation of order 1 and a
concrete status overwrite to `rejected2` on the reachable store. -/
theorem store_status_update_behaviour_witness :
    Bot.ordW.status = "pending"
    ∧ Backend.update_order Bot.stS3.store 1
        { name := none, udid := none, status := some "rejected2",
          download_link := none, image := none } 31
      = .ok ({ Bot.ordW with status := "rejected2" },
             { Bot.stS3.store with orders := (Backend.replaceEntry Bot.stS3.store.orders 1 { Bot.ordW with status := "rejected2" }) })
    ∧ (Backend.replaceEntry Bot.stS3.store.orders 1
        { Bot.ordW with status := "rejected2" }).lookup 1
      = some { Bot.ordW with status := "rejected2" } :=
  store_status_update_behaviour Backend.initStore "alice ($12 Plan)" Bot.udidW ".jpg"
    [1, 2, 3] 30 Bot.ordW 1
    ({ orders := [(1, Bot.ordW)], nextId := 2 } : Backend.StoreState) (by decide)
    Bot.stS3.store 1 Bot.ordW "rejected2" 31 (by decide)

/-- Reduction of the approval branch of `send_response_to_user`: with the
pending entry present and the order present, the store row is set to
`approved`, the completed-orders entry is recorded from the pending entry,
and the success notification is emitted. -/
theorem send_response_approve (uid order_id : Nat) (notifyOk : Bool) (now : Nat)
    (st : Bot.SysState) (info : Bot.PendingInfo) (o : Backend.Order)
    (hlook : st.engine.pending_approvals.lookup uid = some info)
    (horder : st.store.orders.lookup order_id = some o) :
    Bot.send_response_to_user uid true order_id true notifyOk now st =
      (({ engine := { st.engine with
            completed_orders := Bot.setEntry st.engine.completed_orders uid
              { username := info.username, udid := info.udid,
                payment_option := info.payment_option, completion_time := now,
                fastapi_order_id := order_id } },
          store := { st.store with orders := (Backend.replaceEntry st.store.orders order_id { o with status := "approved" }) } },
        [Bot.Reply.successNotification info.udid info.payment_option]), notifyOk) := by
  unfold Bot.send_response_to_user Bot.update_fastapi_order_status Backend.update_order_status
  rw [hlook]
  simp [horder]

/-- Claim C1: with a pending approval outstanding for `order_id` and the
corresponding row present in the Order Store, an admin `approve` event for
that order id sets the stored order's status to `approved`, sends the user
the success notification, and leaves a completed-orders record holding that
order id (modelling the store's status endpoint from the spec contract). -/
theorem approve_event_completes_order
    (data : String) (now : Nat) (st : Bot.SysState) (uid order_id : Nat)
    (info : Bot.PendingInfo) (o : Backend.Order)
    (hdata : Bot.parseDecision data = some ("approve", order_id))
    (hfind : st.engine.pending_approvals.find?
        (fun p => p.2.fastapi_order_id == order_id) = some (uid, info))
    (hlook : st.engine.pending_approvals.lookup uid = some info)
    (horder : st.store.orders.lookup order_id = some o) :
    ((Bot.handle_bot2_callback data true true now st).1.store.orders.lookup order_id)
      = some { o with status := "approved" }
    ∧ Bot.Reply.successNotification info.udid info.payment_option
        ∈ (Bot.handle_bot2_callback data true true now st).2
    ∧ ((Bot.handle_bot2_callback data true true now st).1.engine.completed_orders.lookup uid)
      = some { username := info.username, udid := info.udid,
               payment_option := info.payment_option, completion_time := now,
               fastapi_order_id := order_id } := by
  unfold Bot.handle_bot2_callback
  rw [hdata]
  simp only [hfind]
  have hb : ("approve" == "approve") = true := by decide
  simp only [hb]
  rw [send_response_approve uid order_id true now st info o hlook horder]
  simp only [if_pos rfl]
  refine ⟨?_, ?_, ?_⟩
  · exact lookup_replaceEntry_self st.store.orders order_id _ o horder
  · simp
  · exact lookup_setEntry_self st.engine.completed_orders uid _

/-- Witness for C1: the full concrete flow (valid UDID, plan 12, screenshot,
order 1 created) followed by the admin approving order 1. -/
theorem approve_event_completes_order_witness :
    ((Bot.handle_bot2_callback "approve_1" true true 40 Bot.stS3).1.store.orders.lookup 1)
      = some { Bot.ordW with status := "approved" }
    ∧ Bot.Reply.successNotification Bot.infoW.udid Bot.infoW.payment_option
        ∈ (Bot.handle_bot2_callback "approve_1" true true 40 Bot.stS3).2
    ∧ ((Bot.handle_bot2_callback "approve_1" true true 40 Bot.stS3).1.engine.completed_orders.lookup 7)
      = some { username := Bot.infoW.username, udid := Bot.infoW.udid,
               payment_option := Bot.infoW.payment_option, completion_time := 40,
               fastapi_order_id := 1 } :=
  approve_event_completes_order "approve_1" 40 Bot.stS3 7 1 Bot.infoW Bot.ordW
    (by decide) (by decide) (by decide) (by decide)

/-- Claim C7: an admin decision whose order id matches no outstanding
pending approval (already resolved, or never created) changes nothing — no
engine-state change, no Order Store call — and only yields the
expired/invalid acknowledgment. -/
theorem resolved_decision_is_noop
    (data : String) (updHttpOk notifyOk : Bool) (now : Nat) (st : Bot.SysState)
    (action : String) (order_id : Nat)
    (hdata : Bot.parseDecision data = some (action, order_id))
    (hnone : st.engine.pending_approvals.find?
        (fun p => p.2.fastapi_order_id == order_id) = none) :
    Bot.handle_bot2_callback data updHttpOk notifyOk now st =
      (st, [Bot.Reply.adminExpiredInvalid]) := by
  unfold Bot.handle_bot2_callback
  rw [hdata]
  simp only [hnone]

/-- Witness for C7: a second `approve` for order 1 after it was already
approved (its pending entry is gone in `stS4`). -/
theorem resolved_decision_is_noop_witness :
    Bot.handle_bot2_callback "approve_1" true true 50 Bot.stS4 =
      (Bot.stS4, [Bot.Reply.adminExpiredInvalid]) :=
  resolved_decision_is_noop "approve_1" true true 50 Bot.stS4 "approve" 1
    (by decide) (by decide)

/-- Claim C8: an admin `reject` event for an outstanding pending approval
removes that pending entry, creates no completed-orders record, and leaves
the user's session entry untouched. -/
theorem reject_clears_pending_keeps_session
    (data : String) (updHttpOk notifyOk : Bool) (now : Nat) (st : Bot.SysState)
    (uid order_id : Nat) (info : Bot.PendingInfo)
    (hdata : Bot.parseDecision data = some ("reject", order_id))
    (hfind : st.engine.pending_approvals.find?
        (fun p => p.2.fastapi_order_id == order_id) = some (uid, info)) :
    ((Bot.handle_bot2_callback data updHttpOk notifyOk now st).1.engine.pending_approvals.lookup uid
      = none)
    ∧ (Bot.handle_bot2_callback data updHttpOk notifyOk now st).1.engine.completed_orders
      = st.engine.completed_orders
    ∧ (Bot.handle_bot2_callback data updHttpOk notifyOk now st).1.engine.user_data
      = st.engine.user_data := by
  unfold Bot.handle_bot2_callback Bot.send_response_to_user
  rw [hdata]
  simp only [hfind]
  have hb : ("reject" == "approve") = false := by decide
  simp only [hb, Bool.false_eq_true, if_false]
  exact ⟨lookup_filter_self st.engine.pending_approvals uid, trivial, trivial⟩

/-- Witness for C8: the admin rejects the concrete outstanding order 1. -/
theorem reject_clears_pending_keeps_session_witness :
    ((Bot.handle_bot2_callback "reject_1" true true 40 Bot.stS3).1.engine.pending_approvals.lookup 7
      = none)
    ∧ (Bot.handle_bot2_callback "reject_1" true true 40 Bot.stS3).1.engine.completed_orders
      = Bot.stS3.engine.completed_orders
    ∧ (Bot.handle_bot2_callback "reject_1" true true 40 Bot.stS3).1.engine.user_data
      = Bot.stS3.engine.user_data :=
  reject_clears_pending_keeps_session "reject_1" true true 40 Bot.stS3 7 1 Bot.infoW
    (by decide) (by decide)

/-- Counterexample for C5: in `stC5` user 7 still has an outstanding pending
approval, yet a screenshot upload is answered with the start-over prompt, not
the "already processing" message (the session check precedes the pending
check, and the plan selection was lost when a new UDID overwrote the
session).  No order is created and the state is unchanged. -/
theorem pending_upload_message_counterexample :
    ((Bot.stC5.engine.pending_approvals.lookup 7).isSome = true)
    ∧ (Bot.handle_screenshot 7 "@alice" Bot.envOk 50 Bot.stC5).2
        = [Bot.Reply.startProcessFirst]
    ∧ (Bot.handle_screenshot 7 "@alice" Bot.envOk 50 Bot.stC5).2
        ≠ [Bot.Reply.alreadyProcessing]
    ∧ (Bot.handle_screenshot 7 "@alice" Bot.envOk 50 Bot.stC5).1 = Bot.stC5 := by
  decide

/-- Claim C5 as amended: while a user's pending approval is outstanding, a
screenshot upload never calls create-order and leaves the whole state
unchanged; the reply is "already processing" when the session still holds a
plan selection, and the start-over prompt otherwise. -/
theorem pending_blocks_screenshot_upload
    (uid : Nat) (username : String) (env : Bot.ScreenshotEnv) (now : Nat)
    (st : Bot.SysState)
    (hp : (st.engine.pending_approvals.lookup uid).isSome = true) :
    (Bot.handle_screenshot uid username env now st).1 = st
    ∧ ((Bot.handle_screenshot uid username env now st).2 =
        match st.engine.user_data.lookup uid with
        | some sd =>
          match sd.payment_option with
          | some _ => [Bot.Reply.alreadyProcessing]
          | none => [Bot.Reply.startProcessFirst]
        | none => [Bot.Reply.startProcessFirst]) := by
  cases hu : st.engine.user_data.lookup uid with
  | none => simp [Bot.handle_screenshot, hu]
  | some sd =>
    cases hpo : sd.payment_option with
    | none => simp [Bot.handle_screenshot, hu, hpo]
    | some p => simp [Bot.handle_screenshot, hu, hpo, hp]

/-- Witness for C5 (amended): upload into the untouched post-upload state
`stS3`, where the session still holds plan 12, yielding the
already-processing reply. -/
theorem pending_blocks_screenshot_upload_witness :
    (Bot.handle_screenshot 7 "@alice" Bot.envOk 50 Bot.stS3).1 = Bot.stS3
    ∧ ((Bot.handle_screenshot 7 "@alice" Bot.envOk 50 Bot.stS3).2 =
        match Bot.stS3.engine.user_data.lookup 7 with
        | some sd =>
          match sd.payment_option with
          | some _ => [Bot.Reply.alreadyProcessing]
          | none => [Bot.Reply.startProcessFirst]
        | none => [Bot.Reply.startProcessFirst]) :=
  pending_blocks_screenshot_upload 7 "@alice" Bot.envOk 50 Bot.stS3 (by decide)

/-- Claim C6: when the user is in the proof-awaiting stage (session with a
plan, no pending approval) and the create-order call returns no order id,
the upload fails as a whole: the user gets the failure message, no pending
approval is created, the session — and indeed the entire state — is left
unchanged, so the upload can be retried. -/
theorem create_failure_aborts_upload
    (uid : Nat) (username : String) (env : Bot.ScreenshotEnv) (now : Nat)
    (st : Bot.SysState) (sd : Bot.SessionData) (p : String)
    (hu : st.engine.user_data.lookup uid = some sd)
    (hpo : sd.payment_option = some p)
    (hpend : st.engine.pending_approvals.lookup uid = none)
    (hfile : env.fileOk = true)
    (hfail : (Bot.create_fastapi_order uid username sd.udid p env st.store now).1 = none) :
    Bot.handle_screenshot uid username env now st = (st, [Bot.Reply.orderSubmitFailed])
    ∧ (Bot.handle_screenshot uid username env now st).1.engine.pending_approvals.lookup uid
      = none
    ∧ (Bot.handle_screenshot uid username env now st).1.engine.user_data.lookup uid
      = some sd := by
  have hst : (Bot.create_fastapi_order uid username sd.udid p env st.store now).2 = st.store :=
    create_fastapi_fail_store uid username sd.udid p env st.store now hfail
  have hcr : Bot.create_fastapi_order uid username sd.udid p env st.store now
      = (none, st.store) := by
    rw [Prod.ext_iff]
    exact ⟨hfail, hst⟩
  have hmain : Bot.handle_screenshot uid username env now st
      = (st, [Bot.Reply.orderSubmitFailed]) := by
    simp [Bot.handle_screenshot, hu, hpo, hpend, hfile, hcr]
  refine ⟨hmain, ?_, ?_⟩
  · rw [hmain]
    exact hpend
  · rw [hmain]
    exact hu

/-- Witness for C6: in the post-plan state `stS2` the create call's HTTP
round trip fails, the upload aborts, and the session still awaits proof. -/
theorem create_failure_aborts_upload_witness :
    Bot.handle_screenshot 7 "@alice" Bot.envNetFail 30 Bot.stS2
      = (Bot.stS2, [Bot.Reply.orderSubmitFailed])
    ∧ (Bot.handle_screenshot 7 "@alice" Bot.envNetFail 30 Bot.stS2).1.engine.pending_approvals.lookup 7
      = none
    ∧ (Bot.handle_screenshot 7 "@alice" Bot.envNetFail 30 Bot.stS2).1.engine.user_data.lookup 7
      = some { udid := Bot.udidW, payment_option := some "12" } :=
  create_failure_aborts_upload 7 "@alice" Bot.envNetFail 30 Bot.stS2
    { udid := Bot.udidW, payment_option := some "12" } "12"
    (by decide) (by decide) (by decide) (by decide) (by decide)

/-- Claim C9: the `/start` reset removes only the user's session and pending
approval; the completed-orders map and the Order Store are untouched (and
other users' entries are preserved), so a later `/Details` still returns the
user's completed order. -/
theorem start_preserves_completed_orders (uid : Nat) (st : Bot.SysState)
    (info : Bot.CompletedInfo)
    (hc : st.engine.completed_orders.lookup uid = some info) :
    (Bot.start uid st).1.engine.completed_orders = st.engine.completed_orders
    ∧ (Bot.start uid st).1.store = st.store
    ∧ (Bot.start uid st).1.engine.user_data.lookup uid = none
    ∧ (Bot.start uid st).1.engine.pending_approvals.lookup uid = none
    ∧ (∀ v, v ≠ uid → (Bot.start uid st).1.engine.user_data.lookup v
        = st.engine.user_data.lookup v)
    ∧ (∀ v, v ≠ uid → (Bot.start uid st).1.engine.pending_approvals.lookup v
        = st.engine.pending_approvals.lookup v)
    ∧ (Bot.details_order uid (Bot.start uid st).1).2 = [Bot.Reply.detailsInfo info] := by
  refine ⟨rfl, rfl, lookup_filter_self st.engine.user_data uid,
    lookup_filter_self st.engine.pending_approvals uid,
    fun v hv => lookup_filter_ne st.engine.user_data uid v hv,
    fun v hv => lookup_filter_ne st.engine.pending_approvals uid v hv, ?_⟩
  unfold Bot.details_order
  rw [show (Bot.start uid st).1.engine.completed_orders
      = st.engine.completed_orders from rfl]
  rw [hc]

/-- Witness for C9: after the approved flow (`stS4`) the user issues `/start`
and `/Details` still reports completed order 1; the details lookup is also
specialized to the other-user frame at user id 3. -/
theorem start_preserves_completed_orders_witness :
    (Bot.start 7 Bot.stS4).1.engine.completed_orders = Bot.stS4.engine.completed_orders
    ∧ (Bot.start 7 Bot.stS4).1.store = Bot.stS4.store
    ∧ (Bot.start 7 Bot.stS4).1.engine.user_data.lookup 7 = none
    ∧ (Bot.start 7 Bot.stS4).1.engine.pending_approvals.lookup 7 = none
    ∧ (Bot.start 7 Bot.stS4).1.engine.user_data.lookup 3
        = Bot.stS4.engine.user_data.lookup 3
    ∧ (Bot.start 7 Bot.stS4).1.engine.pending_approvals.lookup 3
        = Bot.stS4.engine.pending_approvals.lookup 3
    ∧ (Bot.details_order 7 (Bot.start 7 Bot.stS4).1).2
        = [Bot.Reply.detailsInfo Bot.completedW] :=
  ⟨(start_preserves_completed_orders 7 Bot.stS4 Bot.completedW (by decide)).1,
   (start_preserves_completed_orders 7 Bot.stS4 Bot.completedW (by decide)).2.1,
   (start_preserves_completed_orders 7 Bot.stS4 Bot.completedW (by decide)).2.2.1,
   (start_preserves_completed_orders 7 Bot.stS4 Bot.completedW (by decide)).2.2.2.1,
   (start_preserves_completed_orders 7 Bot.stS4 Bot.completedW (by decide)).2.2.2.2.1 3 (by decide),
   (start_preserves_completed_orders 7 Bot.stS4 Bot.completedW (by decide)).2.2.2.2.2.1 3 (by decide),
   (start_preserves_completed_orders 7 Bot.stS4 Bot.completedW (by decide)).2.2.2.2.2.2⟩
